import Mathlib

/-!
Verification of the property-search HTTP service (src/app.py).

The service is a thin layer over an external spatial store: handlers parse
HTTP parameters, build parameterized SQL, run it, and shape JSON responses.
This file embeds the handlers and the query builders shallowly: machine
reals of the HTTP layer become rationals, the external store becomes an
explicit table (a list of rows) plus parameters for probe outcomes and for
the store's distance function, and each handler becomes a pure function
from its inputs to a response value.
-/

/-- A timestamp value; only its ISO-8601 rendering is observable in the
service's responses, so the rendering is the data. -/
structure PyDateTime where
  iso : String
deriving DecidableEq

/-- Python values that can reach the JSON serialization layer. -/
inductive PyVal where
  | str (s : String)
  | int (n : Int)
  | float (q : ℚ)
  | bool (b : Bool)
  | pynone
  | decimal (q : ℚ)
  | datetime (d : PyDateTime)
  | other (tag : String)
deriving DecidableEq

/-- The runtime type name used in the TypeError message of
`serialize_result` (src/app.py line 48). -/
def pyTypeName : PyVal → String
  | .str _ => "str"
  | .int _ => "int"
  | .float _ => "float"
  | .bool _ => "bool"
  | .pynone => "NoneType"
  | .decimal _ => "Decimal"
  | .datetime _ => "datetime"
  | .other tag => tag

/-- `serialize_result` (src/app.py lines 42-48): the json.dumps `default`
hook. Decimal becomes float, datetime becomes its isoformat string, and
everything else raises TypeError. -/
def serialize_result : PyVal → Except String PyVal
  | .decimal q => .ok (.float q)
  | .datetime d => .ok (.str d.iso)
  | v => .error ("Object of type " ++ pyTypeName v ++ " is not JSON serializable")

/-- Types json.dumps serializes natively, without calling the `default`
hook. -/
def isJsonNative : PyVal → Bool
  | .str _ => true
  | .int _ => true
  | .float _ => true
  | .bool _ => true
  | .pynone => true
  | _ => false

/-- The response serialization pipeline: jsonify with
`default=serialize_result` passes natively serializable values through
unchanged and sends every other value to `serialize_result`. -/
def normalizeValue (v : PyVal) : Except String PyVal :=
  if isJsonNative v then .ok v else serialize_result v

/-- A row of the external `properties` table. Modelled from the spec:
the table lives in the store, not in src/; spec section 3 gives its
columns (id integer, address text, price decimal required, optional
bedrooms/bathrooms/square_feet, property_type text, listing_status text,
optional point location with x = longitude and y = latitude in SRID 4326,
created_at timestamp). -/
structure Row where
  id : Int
  address : String
  price : ℚ
  bedrooms : Option Int
  bathrooms : Option ℚ
  square_feet : Option Int
  property_type : String
  listing_status : String
  location : Option (ℚ × ℚ)
  created_at : PyDateTime
deriving DecidableEq

/-- Insert a value into a list sorted by `key`, keeping it sorted. -/
def insertKey {α : Type} (key : α → ℚ) (x : α) : List α → List α
  | [] => [x]
  | y :: ys => if key x ≤ key y then x :: y :: ys else y :: insertKey key x ys

/-- ORDER BY `key` ASC: one of the orders the store may return (SQL leaves
the relative order of equal keys unspecified; this insertion sort realizes
one such order). -/
def sortKey {α : Type} (key : α → ℚ) : List α → List α
  | [] => []
  | x :: xs => insertKey key x (sortKey key xs)

theorem mem_insertKey {α : Type} (key : α → ℚ) (x a : α) (l : List α) :
    a ∈ insertKey key x l ↔ a = x ∨ a ∈ l := by
  induction l with
  | nil => simp [insertKey]
  | cons y ys ih =>
    rw [insertKey]
    by_cases h : key x ≤ key y
    · simp only [if_pos h, List.mem_cons]
    · simp only [if_neg h, List.mem_cons, ih]
      tauto

theorem mem_sortKey {α : Type} (key : α → ℚ) (a : α) (l : List α) :
    a ∈ sortKey key l ↔ a ∈ l := by
  induction l with
  | nil => simp [sortKey]
  | cons x xs ih =>
    rw [sortKey, mem_insertKey]
    simp [ih]

theorem length_insertKey {α : Type} (key : α → ℚ) (x : α) (l : List α) :
    (insertKey key x l).length = l.length + 1 := by
  induction l with
  | nil => simp [insertKey]
  | cons y ys ih =>
    rw [insertKey]
    by_cases h : key x ≤ key y
    · simp [if_pos h]
    · simp [if_neg h, ih]

theorem length_sortKey {α : Type} (key : α → ℚ) (l : List α) :
    (sortKey key l).length = l.length := by
  induction l with
  | nil => rfl
  | cons x xs ih => rw [sortKey, length_insertKey, ih, List.length_cons]

theorem pairwise_insertKey {α : Type} (key : α → ℚ) (x : α) (l : List α)
    (h : l.Pairwise fun a b => key a ≤ key b) :
    (insertKey key x l).Pairwise fun a b => key a ≤ key b := by
  induction l with
  | nil => simp [insertKey]
  | cons y ys ih =>
    rw [List.pairwise_cons] at h
    rw [insertKey]
    by_cases hxy : key x ≤ key y
    · rw [if_pos hxy]
      refine List.Pairwise.cons ?_ (List.Pairwise.cons h.1 h.2)
      intro b hb
      rcases List.mem_cons.mp hb with rfl | hb
      · exact hxy
      · exact le_trans hxy (h.1 b hb)
    · rw [if_neg hxy]
      refine List.Pairwise.cons ?_ (ih h.2)
      intro b hb
      rcases (mem_insertKey key x b ys).mp hb with rfl | hb
      · exact le_of_not_le hxy
      · exact h.1 b hb

theorem pairwise_sortKey {α : Type} (key : α → ℚ) (l : List α) :
    (sortKey key l).Pairwise fun a b => key a ≤ key b := by
  induction l with
  | nil => simp [sortKey]
  | cons x xs ih => exact pairwise_insertKey key x _ ih

/-- A raw HTTP query parameter as the numeric parsers see it: absent,
present with numeric content, or present but non-numeric. -/
inductive RawNum where
  | absent
  | num (q : ℚ)
  | malformed
deriving DecidableEq

/-- `float(request.args.get(name, default))`: an absent parameter yields
the float default, a numeric string its value, and a non-numeric string
raises ValueError (`none`). -/
def pyFloatArg : RawNum → ℚ → Option ℚ
  | .absent, d => some d
  | .num q, _ => some q
  | .malformed, _ => none

/-- `int(request.args.get(name, default))`: an absent parameter yields the
int default, an integer-valued string its value, and anything else raises
ValueError (`none`); Python's int() rejects non-integer numerals. -/
def pyIntArg : RawNum → Int → Option Int
  | .absent, d => some d
  | .num q, _ => if q.den = 1 then some q.num else none
  | .malformed, _ => none

/-- One row of the nearby-search SELECT (src/app.py lines 183-198): the
base columns plus ST_X/ST_Y of the stored point and the computed
ST_Distance to the query point. -/
structure NearbyRow where
  base : Row
  longitude : ℚ
  latitude : ℚ
  distance_meters : ℚ
deriving DecidableEq

/-- The nearby-search query (src/app.py lines 182-208): keep rows with a
non-null location whose ST_DWithin predicate holds, order ascending by the
computed distance, apply the LIMIT. The store's distance function `d` is
an external collaborator and is passed in; PostGIS defines
ST_DWithin(a, b, r) as ST_Distance(a, b) ≤ r for geometry arguments, which
is how the radius filter is rendered here. -/
def nearbyHits (d : ℚ × ℚ → ℚ × ℚ → ℚ) (table : List Row) (lng lat : ℚ)
    (radius : Int) : List NearbyRow :=
  table.filterMap fun r =>
    match r.location with
    | none => none
    | some p =>
      if d p (lng, lat) ≤ (radius : ℚ) then
        some ⟨r, p.1, p.2, d p (lng, lat)⟩
      else
        none

/-- ORDER BY distance_meters and LIMIT applied to the hits (src/app.py
lines 206-207). -/
def nearbyQuery (d : ℚ × ℚ → ℚ × ℚ → ℚ) (table : List Row) (lng lat : ℚ)
    (radius : Int) (limit : Int) : List NearbyRow :=
  (sortKey (fun nr => nr.distance_meters) (nearbyHits d table lng lat radius)).take
    limit.toNat

/-- The raw query parameters of a nearby-search request. -/
structure NearbyArgs where
  lat : RawNum
  lng : RawNum
  radius : RawNum
  limit : RawNum
deriving DecidableEq

/-- Response of the nearby-search endpoint: the 200 body of src/app.py
lines 212-217, or one of its two error shapes (lines 219-223). -/
inductive NearbyResp where
  | ok (latitude longitude : ℚ) (radius_meters : Int) (total_found : Nat)
      (properties : List NearbyRow)
  | invalidParams
  | searchFailed
deriving DecidableEq

def NearbyResp.status : NearbyResp → Nat
  | .ok _ _ _ _ _ => 200
  | .invalidParams => 400
  | .searchFailed => 500

def NearbyResp.props : NearbyResp → List NearbyRow
  | .ok _ _ _ _ ps => ps
  | _ => []

def NearbyResp.radiusOf : NearbyResp → Int
  | .ok _ _ r _ _ => r
  | _ => 0

def NearbyResp.totalFound : NearbyResp → Nat
  | .ok _ _ _ t _ => t
  | _ => 0

/-- Handler `find_nearby_properties` (src/app.py lines 171-223), up to
but not including the serialization of the success body. Parses lat/lng
as floats and radius/limit as ints (a ValueError in any of them lands in
the 400 branch), clamps the limit to 100, runs the query and builds the
200 body; `storeOk = false` models any store-level failure (connection or
query), which lands in the generic 500 branch. In the real program the
success body is then handed to jsonify with a default keyword, which
raises; `find_nearby_properties_full` below adds that step. -/
def find_nearby_properties (d : ℚ × ℚ → ℚ × ℚ → ℚ) (table : List Row)
    (storeOk : Bool) (args : NearbyArgs) : NearbyResp :=
  match pyFloatArg args.lat (377749 / 10000), pyFloatArg args.lng (-1224194 / 10000),
      pyIntArg args.radius 1000, pyIntArg args.limit 10 with
  | some lat, some lng, some radius, some limitRaw =>
    if storeOk then
      let limit := min limitRaw 100
      let rows := nearbyQuery d table lng lat radius limit
      .ok lat lng radius rows.length rows
    else
      .searchFailed
  | _, _, _, _ => .invalidParams

/-- Flask's jsonify called with a positional body combined with the
`default=serialize_result` keyword, as on the success paths of both
search handlers (src/app.py lines 212-217 and 276-285). Modelled from
the contract of Flask, an external collaborator not in src/: jsonify
accepts positional arguments or keyword arguments, never both, and has
no default parameter, so this call raises TypeError instead of building
a response. The error-path jsonify calls of the handlers pass a single
positional dict and succeed. -/
def jsonifyWithDefault {α : Type} (_body : α) : Except String α :=
  .error "jsonify() behavior undefined when passed both args and kwargs"

/-- Handler `find_nearby_properties` including the response-serialization
step: the success body's jsonify call raises TypeError, which is not a
ValueError and therefore lands in the generic except branch (src/app.py
lines 221-223) as the 500 response, so the 200 response is unreachable;
the error responses pass through unchanged. -/
def find_nearby_properties_full (d : ℚ × ℚ → ℚ × ℚ → ℚ) (table : List Row)
    (storeOk : Bool) (args : NearbyArgs) : NearbyResp :=
  match find_nearby_properties d table storeOk args with
  | .ok lat lng radius total props =>
    match jsonifyWithDefault (NearbyResp.ok lat lng radius total props) with
    | .ok resp => resp
    | .error _ => .searchFailed
  | resp => resp

/-- The condition templates the dynamic search builder can append
(src/app.py lines 237-254), each carrying the value bound to its
placeholder. -/
inductive Cond where
  | statusActive
  | priceGe (n : Int)
  | priceLe (n : Int)
  | bedsGe (n : Int)
  | bathsGe (q : ℚ)
  | typeIlike (s : String)
deriving DecidableEq

/-- A value appended to the positional parameter list. -/
inductive SqlParam where
  | int (n : Int)
  | float (q : ℚ)
  | str (s : String)
deriving DecidableEq

/-- The SQL text of each condition exactly as appended in
src/app.py lines 237-253 (\x27 is the single-quote character). -/
def Cond.render : Cond → String
  | .statusActive => "listing_status = \x27active\x27"
  | .priceGe _ => "price >= %s"
  | .priceLe _ => "price <= %s"
  | .bedsGe _ => "bedrooms >= %s"
  | .bathsGe _ => "bathrooms >= %s"
  | .typeIlike _ => "property_type ILIKE %s"

/-- The parameter values appended alongside each condition
(src/app.py lines 242-254); the ILIKE value is wrapped in percent
wildcards on both sides. -/
def Cond.boundParams : Cond → List SqlParam
  | .statusActive => []
  | .priceGe n => [.int n]
  | .priceLe n => [.int n]
  | .bedsGe n => [.int n]
  | .bathsGe q => [.float q]
  | .typeIlike s => [.str ("%" ++ s ++ "%")]

/-- Lower-case character sequence of a string (ASCII case folding). -/
def lowerChars (s : String) : List Char :=
  s.toList.map Char.toLower

/-- Does `p` occur at the head of `l`? -/
def headMatches : List Char → List Char → Bool
  | [], _ => true
  | _ :: _, [] => false
  | c :: cs, h :: hs => c == h && headMatches cs hs

/-- Does `p` occur contiguously anywhere in `l`? -/
def containsSeq (p : List Char) : List Char → Bool
  | [] => p.isEmpty
  | h :: hs => headMatches p (h :: hs) || containsSeq p hs

/-- Modelled from the spec: the store evaluating
`property_type ILIKE %needle%` — case-insensitive containment of the
needle (taken wildcard-free) in the column value; the SQL engine that
evaluates ILIKE is not part of src/. -/
def ilikeContains (needle hay : String) : Bool :=
  containsSeq (lowerChars needle) (lowerChars hay)

/-- SQL truth value of one condition at a row; comparisons against a NULL
column are not true. -/
def Cond.eval : Cond → Row → Bool
  | .statusActive, r => r.listing_status == "active"
  | .priceGe n, r => decide ((n : ℚ) ≤ r.price)
  | .priceLe n, r => decide (r.price ≤ (n : ℚ))
  | .bedsGe n, r =>
    match r.bedrooms with
    | none => false
    | some b => decide (n ≤ b)
  | .bathsGe q, r =>
    match r.bathrooms with
    | none => false
    | some b => decide (q ≤ b)
  | .typeIlike s, r => ilikeContains s r.property_type

/-- The optional filter parameters of a filtered-search request, as they
come out of `request.args.get(..., type=...)` (absent or unparsable gives
`none`). -/
structure SearchFilters where
  price_min : Option Int
  price_max : Option Int
  bedrooms : Option Int
  bathrooms : Option ℚ
  property_type : Option String
deriving DecidableEq

/-- `if price_min:` step (src/app.py lines 240-242); Python truthiness
makes both None and 0 skip the append. -/
def stepPriceMin (f : SearchFilters) (acc : List Cond × List SqlParam) :
    List Cond × List SqlParam :=
  match f.price_min with
  | some n => if n = 0 then acc else (acc.1 ++ [.priceGe n], acc.2 ++ [.int n])
  | none => acc

/-- `if price_max:` step (src/app.py lines 243-245). -/
def stepPriceMax (f : SearchFilters) (acc : List Cond × List SqlParam) :
    List Cond × List SqlParam :=
  match f.price_max with
  | some n => if n = 0 then acc else (acc.1 ++ [.priceLe n], acc.2 ++ [.int n])
  | none => acc

/-- `if bedrooms:` step (src/app.py lines 246-248). -/
def stepBedrooms (f : SearchFilters) (acc : List Cond × List SqlParam) :
    List Cond × List SqlParam :=
  match f.bedrooms with
  | some n => if n = 0 then acc else (acc.1 ++ [.bedsGe n], acc.2 ++ [.int n])
  | none => acc

/-- `if bathrooms:` step (src/app.py lines 249-251); 0.0 is falsy. -/
def stepBathrooms (f : SearchFilters) (acc : List Cond × List SqlParam) :
    List Cond × List SqlParam :=
  match f.bathrooms with
  | some q => if q = 0 then acc else (acc.1 ++ [.bathsGe q], acc.2 ++ [.float q])
  | none => acc

/-- `if property_type:` step (src/app.py lines 252-254); the empty string
is falsy and the bound value is the wildcard-wrapped pattern. -/
def stepPropertyType (f : SearchFilters) (acc : List Cond × List SqlParam) :
    List Cond × List SqlParam :=
  match f.property_type with
  | some s =>
    if s = "" then acc
    else (acc.1 ++ [.typeIlike s], acc.2 ++ [.str ("%" ++ s ++ "%")])
  | none => acc

/-- The dynamic query builder of `search_properties` (src/app.py lines
236-256): start from the mandatory status predicate and empty parameter
list, run the five append steps in source order, then append the
(already clamped) limit as the last parameter. -/
def buildQuery (f : SearchFilters) (limit : Int) : List Cond × List SqlParam :=
  let acc : List Cond × List SqlParam := ([.statusActive], [])
  let acc := stepPriceMin f acc
  let acc := stepPriceMax f acc
  let acc := stepBedrooms f acc
  let acc := stepBathrooms f acc
  let acc := stepPropertyType f acc
  (acc.1, acc.2 ++ [.int limit])

/-- The filtered-search SQL (src/app.py lines 258-269): WHERE joins all
conditions with AND, ORDER BY price ASC, LIMIT. -/
def searchQuery (table : List Row) (conds : List Cond) (limit : Int) : List Row :=
  (sortKey (fun r => r.price) (table.filter fun r => conds.all fun c => c.eval r)).take
    limit.toNat

/-- The raw parameters of a filtered-search request; the limit is kept raw
because `int(...)` on it can raise. -/
structure SearchArgs where
  filters : SearchFilters
  limit : RawNum
deriving DecidableEq

/-- Response of the filtered-search endpoint: the 200 body of src/app.py
lines 276-285 (filters echoed back, total_found, rows) or the generic 500
(lines 287-289). -/
inductive SearchResp where
  | ok (filters_applied : SearchFilters) (total_found : Nat) (properties : List Row)
  | searchFailed
deriving DecidableEq

def SearchResp.status : SearchResp → Nat
  | .ok _ _ _ => 200
  | .searchFailed => 500

def SearchResp.props : SearchResp → List Row
  | .ok _ _ ps => ps
  | _ => []

def SearchResp.totalFound : SearchResp → Nat
  | .ok _ t _ => t
  | _ => 0

/-- Handler `search_properties` (src/app.py lines 225-289), up to but not
including the serialization of the success body. A ValueError from
`int(...)` on the limit is caught only by the generic handler, so it
yields the 500 response, as does any store failure. In the real program
the success body is then handed to jsonify with a default keyword, which
raises; `search_properties_full` below adds that step. -/
def search_properties (table : List Row) (storeOk : Bool) (a : SearchArgs) :
    SearchResp :=
  match pyIntArg a.limit 20 with
  | none => .searchFailed
  | some limitRaw =>
    if storeOk then
      let limit := min limitRaw 100
      let built := buildQuery a.filters limit
      let rows := searchQuery table built.1 limit
      .ok a.filters rows.length rows
    else
      .searchFailed

/-- Handler `search_properties` including the response-serialization
step: the success body's jsonify call (src/app.py lines 276-285) raises
TypeError, caught by the generic except (lines 287-289) as the 500
response, so this endpoint's 200 response is unreachable too. -/
def search_properties_full (table : List Row) (storeOk : Bool) (a : SearchArgs) :
    SearchResp :=
  match search_properties table storeOk a with
  | .ok filters total props =>
    match jsonifyWithDefault (SearchResp.ok filters total props) with
    | .ok resp => resp
    | .error _ => .searchFailed
  | resp => resp

/-- Conditions contributed by one optional integer filter. -/
def optCondInt (mk : Int → Cond) : Option Int → List Cond
  | some n => if n = 0 then [] else [mk n]
  | none => []

/-- Parameters contributed by one optional integer filter. -/
def optParamInt : Option Int → List SqlParam
  | some n => if n = 0 then [] else [.int n]
  | none => []

/-- Conditions contributed by the optional bathrooms filter. -/
def optCondRat : Option ℚ → List Cond
  | some q => if q = 0 then [] else [.bathsGe q]
  | none => []

/-- Parameters contributed by the optional bathrooms filter. -/
def optParamRat : Option ℚ → List SqlParam
  | some q => if q = 0 then [] else [.float q]
  | none => []

/-- Conditions contributed by the optional property-type filter. -/
def optCondStr : Option String → List Cond
  | some s => if s = "" then [] else [.typeIlike s]
  | none => []

/-- Parameters contributed by the optional property-type filter. -/
def optParamStr : Option String → List SqlParam
  | some s => if s = "" then [] else [.str ("%" ++ s ++ "%")]
  | none => []

/-- The optional conditions of a filter set, in append order. -/
def condsOf (f : SearchFilters) : List Cond :=
  optCondInt .priceGe f.price_min ++ optCondInt .priceLe f.price_max ++
    optCondInt .bedsGe f.bedrooms ++ optCondRat f.bathrooms ++
    optCondStr f.property_type

/-- The optional parameters of a filter set, in append order. -/
def paramsOf (f : SearchFilters) : List SqlParam :=
  optParamInt f.price_min ++ optParamInt f.price_max ++
    optParamInt f.bedrooms ++ optParamRat f.bathrooms ++
    optParamStr f.property_type

theorem stepPriceMin_eq (f : SearchFilters) (acc : List Cond × List SqlParam) :
    stepPriceMin f acc =
      (acc.1 ++ optCondInt .priceGe f.price_min, acc.2 ++ optParamInt f.price_min) := by
  cases h : f.price_min with
  | none => simp [stepPriceMin, optCondInt, optParamInt, h]
  | some n =>
    by_cases hn : n = 0 <;> simp [stepPriceMin, optCondInt, optParamInt, h, hn]

theorem stepPriceMax_eq (f : SearchFilters) (acc : List Cond × List SqlParam) :
    stepPriceMax f acc =
      (acc.1 ++ optCondInt .priceLe f.price_max, acc.2 ++ optParamInt f.price_max) := by
  cases h : f.price_max with
  | none => simp [stepPriceMax, optCondInt, optParamInt, h]
  | some n =>
    by_cases hn : n = 0 <;> simp [stepPriceMax, optCondInt, optParamInt, h, hn]

theorem stepBedrooms_eq (f : SearchFilters) (acc : List Cond × List SqlParam) :
    stepBedrooms f acc =
      (acc.1 ++ optCondInt .bedsGe f.bedrooms, acc.2 ++ optParamInt f.bedrooms) := by
  cases h : f.bedrooms with
  | none => simp [stepBedrooms, optCondInt, optParamInt, h]
  | some n =>
    by_cases hn : n = 0 <;> simp [stepBedrooms, optCondInt, optParamInt, h, hn]

theorem stepBathrooms_eq (f : SearchFilters) (acc : List Cond × List SqlParam) :
    stepBathrooms f acc =
      (acc.1 ++ optCondRat f.bathrooms, acc.2 ++ optParamRat f.bathrooms) := by
  cases h : f.bathrooms with
  | none => simp [stepBathrooms, optCondRat, optParamRat, h]
  | some q =>
    by_cases hq : q = 0 <;> simp [stepBathrooms, optCondRat, optParamRat, h, hq]

theorem stepPropertyType_eq (f : SearchFilters) (acc : List Cond × List SqlParam) :
    stepPropertyType f acc =
      (acc.1 ++ optCondStr f.property_type, acc.2 ++ optParamStr f.property_type) := by
  cases h : f.property_type with
  | none => simp [stepPropertyType, optCondStr, optParamStr, h]
  | some s =>
    by_cases hs : s = "" <;> simp [stepPropertyType, optCondStr, optParamStr, h, hs]

/-- The builder yields the base predicate followed by the optional
conditions in source order, and the optional parameters in the same order
followed by the limit. -/
theorem buildQuery_eq (f : SearchFilters) (limit : Int) :
    buildQuery f limit = (Cond.statusActive :: condsOf f, paramsOf f ++ [.int limit]) := by
  simp [buildQuery, stepPriceMin_eq, stepPriceMax_eq, stepBedrooms_eq,
    stepBathrooms_eq, stepPropertyType_eq, condsOf, paramsOf, List.append_assoc]

/-- Number of %s placeholders in a character sequence (non-overlapping,
left to right, as the SQL driver scans them). -/
def phCount : List Char → Nat
  | '%' :: 's' :: rest => 1 + phCount rest
  | _ :: rest => phCount rest
  | [] => 0

/-- How many of the five optional filter inputs are present (the reading
of the original claim: present means supplied at all). -/
def presentCount (f : SearchFilters) : Nat :=
  (if f.price_min.isSome then 1 else 0) + (if f.price_max.isSome then 1 else 0) +
    (if f.bedrooms.isSome then 1 else 0) + (if f.bathrooms.isSome then 1 else 0) +
    (if f.property_type.isSome then 1 else 0)

/-- Python truthiness of the five optional filter inputs: present and
non-zero / non-empty. -/
def truthyCount (f : SearchFilters) : Nat :=
  (match f.price_min with | some n => if n = 0 then 0 else 1 | none => 0) +
    (match f.price_max with | some n => if n = 0 then 0 else 1 | none => 0) +
    (match f.bedrooms with | some n => if n = 0 then 0 else 1 | none => 0) +
    (match f.bathrooms with | some q => if q = 0 then 0 else 1 | none => 0) +
    (match f.property_type with | some s => if s = "" then 0 else 1 | none => 0)

/-- Scalar JSON values of the insert request body. -/
inductive JVal where
  | str (s : String)
  | num (q : ℚ)
  | bool (b : Bool)
  | null
deriving DecidableEq

/-- A parsed JSON body: association of keys to values. -/
def Body : Type := List (String × JVal)

/-- `field in data` (src/app.py line 298). -/
def hasField (data : Body) (k : String) : Bool :=
  (List.lookup k data).isSome

/-- The `all(field in data for field in required_fields)` check of
add_property (src/app.py lines 296-298). -/
def requiredPresent (data : Body) : Bool :=
  (["address", "price", "latitude", "longitude"].all fun k => hasField data k)

/-- Modelled from the spec: the store accepts a text column value only
from a string (the schema of section 3 is not in src/). -/
def coerceStr : Option JVal → Option String
  | some (.str s) => some s
  | _ => none

/-- Modelled from the spec: the store accepts a numeric column value only
from a number. -/
def coerceNum : Option JVal → Option ℚ
  | some (.num q) => some q
  | _ => none

/-- Modelled from the spec: a nullable integer column; an absent key or a
JSON null stores NULL, an integer number stores its value. -/
def coerceOptInt : Option JVal → Option (Option Int)
  | none => some none
  | some .null => some none
  | some (.num q) => if q.den = 1 then some (some q.num) else none
  | some _ => none

/-- Modelled from the spec: a nullable numeric column; an absent key or a
JSON null stores NULL. -/
def coerceOptNum : Option JVal → Option (Option ℚ)
  | none => some none
  | some .null => some none
  | some (.num q) => some (some q)
  | some _ => none

/-- `data.get(\x27property_type\x27, \x27Unknown\x27)` (src/app.py line
317): the default applies only when the key is absent. -/
def propTypeOf (data : Body) : Option String :=
  match List.lookup "property_type" data with
  | none => some "Unknown"
  | some (.str s) => some s
  | some _ => none

/-- Modelled from the spec: the INSERT names no listing_status, so the
inserted row carries the store's column default, which the spec leaves
unspecified; no claim depends on its value. -/
def defaultListingStatus : String := ""

/-- The INSERT of add_property (src/app.py lines 303-320): the stored
point is built as POINT(longitude latitude) with SRID 4326, the id is
assigned by the store, created_at is the store timestamp. `none` models
the store rejecting ill-typed values. -/
def insertRow (nextId : Int) (ts : PyDateTime) (data : Body) : Option Row :=
  match coerceStr (List.lookup "address" data), coerceNum (List.lookup "price" data),
      coerceOptInt (List.lookup "bedrooms" data),
      coerceOptNum (List.lookup "bathrooms" data),
      coerceOptInt (List.lookup "square_feet" data), propTypeOf data,
      coerceNum (List.lookup "longitude" data), coerceNum (List.lookup "latitude" data) with
  | some addr, some price, some beds, some baths, some sqft, some ptype, some lng, some lat =>
    some ⟨nextId, addr, price, beds, baths, sqft, ptype, defaultListingStatus,
      some (lng, lat), ts⟩
  | _, _, _, _, _, _, _, _ => none

/-- Response of the insert endpoint: 201 body (src/app.py lines 325-329),
the 400 missing-fields body (line 299), or the generic 500 (lines
331-333). -/
inductive AddResp where
  | created (property_id : Int)
  | missingFields
  | addFailed
deriving DecidableEq

def AddResp.status : AddResp → Nat
  | .created _ => 201
  | .missingFields => 400
  | .addFailed => 500

/-- Handler add_property (src/app.py lines 291-333): validates the
required keys before touching the store, then runs the single INSERT;
returns the response together with the resulting table state. -/
def add_property (table : List Row) (nextId : Int) (ts : PyDateTime) (data : Body) :
    AddResp × List Row :=
  if requiredPresent data then
    match insertRow nextId ts data with
    | some row => (.created nextId, table ++ [row])
    | none => (.addFailed, table)
  else
    (.missingFields, table)

/-- Result of the connectivity probe (src/app.py line 125). -/
structure DbInfo where
  version : String
  current_database : String
  current_user : String
  now : PyDateTime
deriving DecidableEq

/-- Result of the row-count probe (src/app.py lines 134-138). -/
structure SpatialStats where
  property_count : Nat
  properties_with_location : Nat
deriving DecidableEq

/-- Response of the health endpoint: the healthy body of src/app.py lines
142-161 (nested database / postgis / data_summary sections with
spatial_enabled fixed to true) or the unhealthy body of lines 164-168. -/
inductive HealthResp where
  | healthy (timestamp : String) (database : DbInfo) (postgis_version : String)
      (spatial_enabled : Bool) (data_summary : SpatialStats)
  | unhealthy (error : String) (timestamp : String)
deriving DecidableEq

def HealthResp.status : HealthResp → Nat
  | .healthy _ _ _ _ _ => 200
  | .unhealthy _ _ => 500

/-- Handler health_check (src/app.py lines 118-168): the three probes run
in order inside one try block, so the first failure aborts the check and
produces the unhealthy body with that failure's message; probe outcomes
are parameters because the store is external. -/
def health_check (p1 : Except String DbInfo) (p2 : Except String String)
    (p3 : Except String SpatialStats) (ts : String) : HealthResp :=
  match p1 with
  | .error e => .unhealthy e ts
  | .ok dbInfo =>
    match p2 with
    | .error e => .unhealthy e ts
    | .ok postgisVersion =>
      match p3 with
      | .error e => .unhealthy e ts
      | .ok stats => .healthy ts dbInfo postgisVersion true stats

theorem pyIntArg_intCast (n dflt : Int) : pyIntArg (.num (n : ℚ)) dflt = some n := by
  simp [pyIntArg, Rat.den_intCast, Rat.num_intCast]

/-- Exhaustive description of the nearby handler's outcomes. -/
theorem find_nearby_cases (d : ℚ × ℚ → ℚ × ℚ → ℚ) (table : List Row)
    (storeOk : Bool) (args : NearbyArgs) :
    find_nearby_properties d table storeOk args = .invalidParams
  ∨ find_nearby_properties d table storeOk args = .searchFailed
  ∨ ∃ lat lng radius limitRaw,
      pyFloatArg args.lat (377749 / 10000) = some lat
      ∧ pyFloatArg args.lng (-1224194 / 10000) = some lng
      ∧ pyIntArg args.radius 1000 = some radius
      ∧ pyIntArg args.limit 10 = some limitRaw
      ∧ storeOk = true
      ∧ find_nearby_properties d table storeOk args =
          .ok lat lng radius (nearbyQuery d table lng lat radius (min limitRaw 100)).length
            (nearbyQuery d table lng lat radius (min limitRaw 100)) := by
  unfold find_nearby_properties
  cases h1 : pyFloatArg args.lat (377749 / 10000) with
  | none => exact .inl rfl
  | some lat =>
    cases h2 : pyFloatArg args.lng (-1224194 / 10000) with
    | none => exact .inl rfl
    | some lng =>
      cases h3 : pyIntArg args.radius 1000 with
      | none => exact .inl rfl
      | some radius =>
        cases h4 : pyIntArg args.limit 10 with
        | none => exact .inl rfl
        | some limitRaw =>
          cases storeOk with
          | false => exact .inr (.inl rfl)
          | true => exact .inr (.inr ⟨lat, lng, radius, limitRaw, rfl, rfl, rfl, rfl, rfl, rfl⟩)

/-- Exhaustive description of the filtered-search handler's outcomes. -/
theorem search_cases (table : List Row) (storeOk : Bool) (a : SearchArgs) :
    search_properties table storeOk a = .searchFailed
  ∨ ∃ limitRaw,
      pyIntArg a.limit 20 = some limitRaw
      ∧ storeOk = true
      ∧ search_properties table storeOk a =
          .ok a.filters
            (searchQuery table (buildQuery a.filters (min limitRaw 100)).1
              (min limitRaw 100)).length
            (searchQuery table (buildQuery a.filters (min limitRaw 100)).1
              (min limitRaw 100)) := by
  unfold search_properties
  cases h1 : pyIntArg a.limit 20 with
  | none => exact .inl rfl
  | some limitRaw =>
    cases storeOk with
    | false => exact .inl rfl
    | true => exact .inr ⟨limitRaw, rfl, rfl, rfl⟩

theorem mem_nearbyHits (d : ℚ × ℚ → ℚ × ℚ → ℚ) (table : List Row) (lng lat : ℚ)
    (radius : Int) (nr : NearbyRow)
    (h : nr ∈ nearbyHits d table lng lat radius) :
    nr.distance_meters ≤ (radius : ℚ) ∧ nr.base.location.isSome = true := by
  simp only [nearbyHits] at h
  rw [List.mem_filterMap] at h
  obtain ⟨r, _, hr⟩ := h
  split at hr
  · exact absurd hr (by simp)
  · rename_i p heq
    split at hr
    · rename_i hd
      cases hr
      exact ⟨hd, by rw [heq]; rfl⟩
    · exact absurd hr (by simp)

theorem mem_nearbyQuery (d : ℚ × ℚ → ℚ × ℚ → ℚ) (table : List Row) (lng lat : ℚ)
    (radius limit : Int) (nr : NearbyRow)
    (h : nr ∈ nearbyQuery d table lng lat radius limit) :
    nr.distance_meters ≤ (radius : ℚ) ∧ nr.base.location.isSome = true := by
  simp only [nearbyQuery] at h
  have h1 := (List.take_sublist _ _).subset h
  rw [mem_sortKey] at h1
  exact mem_nearbyHits d table lng lat radius nr h1

theorem pairwise_nearbyQuery (d : ℚ × ℚ → ℚ × ℚ → ℚ) (table : List Row)
    (lng lat : ℚ) (radius limit : Int) :
    (nearbyQuery d table lng lat radius limit).Pairwise
      (fun a b => a.distance_meters ≤ b.distance_meters) := by
  simp only [nearbyQuery]
  exact (pairwise_sortKey (fun nr : NearbyRow => nr.distance_meters) _).sublist
    (List.take_sublist _ _)

theorem length_nearbyQuery_le (d : ℚ × ℚ → ℚ × ℚ → ℚ) (table : List Row)
    (lng lat : ℚ) (radius limit : Int) :
    (nearbyQuery d table lng lat radius limit).length ≤ limit.toNat :=
  List.length_take_le _ _

theorem length_searchQuery_le (table : List Row) (conds : List Cond) (limit : Int) :
    (searchQuery table conds limit).length ≤ limit.toNat :=
  List.length_take_le _ _

theorem mem_searchQuery (table : List Row) (conds : List Cond) (limit : Int)
    (r : Row) (h : r ∈ searchQuery table conds limit) :
    ∀ c ∈ conds, c.eval r = true := by
  simp only [searchQuery] at h
  have h1 := (List.take_sublist _ _).subset h
  rw [mem_sortKey] at h1
  have h2 := (List.mem_filter.mp h1).2
  rw [List.all_eq_true] at h2
  exact h2

theorem insertRow_elim (nextId : Int) (ts : PyDateTime) (data : Body) (row : Row)
    (h : insertRow nextId ts data = some row) :
    row.id = nextId
    ∧ propTypeOf data = some row.property_type
    ∧ ∃ lng lat, coerceNum (List.lookup "longitude" data) = some lng
        ∧ coerceNum (List.lookup "latitude" data) = some lat
        ∧ row.location = some (lng, lat) := by
  unfold insertRow at h
  split at h
  · rename_i addr price beds baths sqft ptype lng lat ha hp hb hbt hs hpt hlng hlat
    cases h
    exact ⟨rfl, hpt, lng, lat, hlng, hlat, rfl⟩
  · exact absurd h (by simp)

theorem flat_optCondInt (mk : Int → Cond)
    (hmk : ∀ n, Cond.boundParams (mk n) = [.int n]) (x : Option Int) :
    ((optCondInt mk x).map Cond.boundParams).flatten = optParamInt x := by
  cases x with
  | none => rfl
  | some n => by_cases hn : n = 0 <;> simp [optCondInt, optParamInt, hn, hmk]

theorem flat_optCondRat (x : Option ℚ) :
    ((optCondRat x).map Cond.boundParams).flatten = optParamRat x := by
  cases x with
  | none => rfl
  | some q => by_cases hq : q = 0 <;> simp [optCondRat, optParamRat, hq, Cond.boundParams]

theorem flat_optCondStr (x : Option String) :
    ((optCondStr x).map Cond.boundParams).flatten = optParamStr x := by
  cases x with
  | none => rfl
  | some s => by_cases hs : s = "" <;> simp [optCondStr, optParamStr, hs, Cond.boundParams]

theorem paramsOf_eq_flat (f : SearchFilters) :
    paramsOf f = ((condsOf f).map Cond.boundParams).flatten := by
  simp only [paramsOf, condsOf, List.map_append, List.flatten_append,
    flat_optCondInt Cond.priceGe (fun _ => rfl),
    flat_optCondInt Cond.priceLe (fun _ => rfl),
    flat_optCondInt Cond.bedsGe (fun _ => rfl), flat_optCondRat, flat_optCondStr]

/-- C5: the bound parameter sequence of the filtered-search builder is
exactly the values of the appended optional conditions in append order
with the limit value last, and each condition template carries exactly as
many %s placeholders as values it binds (none for the base predicate, one
for every optional predicate), so the i-th placeholder binds the i-th
appended value. -/
theorem search_params_lockstep (f : SearchFilters) (limit : Int) :
    (buildQuery f limit).2 =
      ((buildQuery f limit).1.map Cond.boundParams).flatten ++ [SqlParam.int limit]
    ∧ ∀ c : Cond, phCount (Cond.render c).toList = (Cond.boundParams c).length := by
  constructor
  · simp [buildQuery_eq, paramsOf_eq_flat, Cond.boundParams]
  · intro c
    cases c <;> rfl

/-- C9: a failure in any of the three health probes aborts the check and
yields the unhealthy 500 body with that failure's message and the
timestamp, regardless of the later probes; when all three succeed the
response is the healthy 200 body with the nested database, postgis and
data_summary sections. -/
theorem health_check_probe_paths (dbInfo : DbInfo) (pg : String) (st : SpatialStats)
    (e ts : String) (p2 : Except String String) (p3 : Except String SpatialStats) :
    (health_check (.error e) p2 p3 ts = .unhealthy e ts
      ∧ (health_check (.error e) p2 p3 ts).status = 500)
    ∧ (health_check (.ok dbInfo) (.error e) p3 ts = .unhealthy e ts
      ∧ (health_check (.ok dbInfo) (.error e) p3 ts).status = 500)
    ∧ (health_check (.ok dbInfo) (.ok pg) (.error e) ts = .unhealthy e ts
      ∧ (health_check (.ok dbInfo) (.ok pg) (.error e) ts).status = 500)
    ∧ (health_check (.ok dbInfo) (.ok pg) (.ok st) ts = .healthy ts dbInfo pg true st
      ∧ (health_check (.ok dbInfo) (.ok pg) (.ok st) ts).status = 200) :=
  ⟨⟨rfl, rfl⟩, ⟨rfl, rfl⟩, ⟨rfl, rfl⟩, ⟨rfl, rfl⟩⟩

/-- C7: the serializer maps a Decimal to a float and a datetime to its
ISO-8601 string, and for every other value either passes it through
unchanged (natively serializable types) or fails with the TypeError
message (everything else) — never both. -/
theorem serializer_decimal_datetime_or_fault (q : ℚ) (dt : PyDateTime) (v : PyVal)
    (hq : ∀ x, v ≠ PyVal.decimal x) (hd : ∀ x, v ≠ PyVal.datetime x) :
    normalizeValue (.decimal q) = .ok (.float q)
    ∧ normalizeValue (.datetime dt) = .ok (.str dt.iso)
    ∧ (normalizeValue v = .ok v ∨ ∃ msg, normalizeValue v = .error msg) := by
  refine ⟨rfl, rfl, ?_⟩
  cases v with
  | str s => exact .inl rfl
  | int n => exact .inl rfl
  | float x => exact .inl rfl
  | bool b => exact .inl rfl
  | pynone => exact .inl rfl
  | decimal x => exact absurd rfl (hq x)
  | datetime x => exact absurd rfl (hd x)
  | other tag => exact .inr ⟨_, rfl⟩

theorem serializer_decimal_datetime_or_fault_witness :
    normalizeValue (.decimal 2) = .ok (.float 2)
    ∧ normalizeValue (.datetime ⟨"2024-01-01T00:00:00"⟩) =
        .ok (.str "2024-01-01T00:00:00")
    ∧ (normalizeValue (.int 3) = .ok (.int 3)
        ∨ ∃ msg, normalizeValue (.int 3) = .error msg) :=
  serializer_decimal_datetime_or_fault 2 ⟨"2024-01-01T00:00:00"⟩ (.int 3)
    (fun _ h => nomatch h) (fun _ h => nomatch h)

/-- C3: a POST body missing any of the four required keys yields the 400
missing-fields response and leaves the table unchanged; with all four
present and values the store accepts, the insert runs, the response is
201 carrying the newly assigned id, and property_type defaults to
Unknown exactly when that key is absent. -/
theorem add_property_required_fields (table : List Row) (nextId : Int)
    (ts : PyDateTime) (data : Body) :
    (requiredPresent data = false →
      add_property table nextId ts data = (.missingFields, table)
      ∧ (add_property table nextId ts data).1.status = 400)
    ∧ (requiredPresent data = true → ∀ row, insertRow nextId ts data = some row →
      add_property table nextId ts data = (.created nextId, table ++ [row])
      ∧ (AddResp.created nextId).status = 201
      ∧ row.id = nextId
      ∧ (List.lookup "property_type" data = none → row.property_type = "Unknown")) := by
  constructor
  · intro h
    refine ⟨?_, ?_⟩ <;> simp [add_property, h, AddResp.status]
  · intro h row hrow
    refine ⟨by simp [add_property, h, hrow], rfl,
      (insertRow_elim nextId ts data row hrow).1, ?_⟩
    intro hnone
    have h2 := (insertRow_elim nextId ts data row hrow).2.1
    unfold propTypeOf at h2
    rw [hnone] at h2
    simp only [Option.some.injEq] at h2
    exact h2.symm

/-- A body missing three of the four required keys. -/
def bodyMissing : Body := [("address", .str "1 Main St")]

/-- A complete, well-typed insert body without a property_type key. -/
def bodyFull : Body :=
  [("address", .str "1 Main St"), ("price", .num 500000),
    ("latitude", .num 37), ("longitude", .num (-122))]

/-- The row the store creates for bodyFull with id 1. -/
def rowFull : Row :=
  ⟨1, "1 Main St", 500000, none, none, none, "Unknown", defaultListingStatus,
    some (-122, 37), ⟨"t0"⟩⟩

theorem add_property_required_fields_witness :
    (add_property [] 1 ⟨"t0"⟩ bodyMissing = (.missingFields, [])
      ∧ (add_property [] 1 ⟨"t0"⟩ bodyMissing).1.status = 400)
    ∧ (add_property [] 1 ⟨"t0"⟩ bodyFull = (.created 1, [] ++ [rowFull])
      ∧ (AddResp.created 1).status = 201
      ∧ rowFull.id = 1
      ∧ (List.lookup "property_type" bodyFull = none →
          rowFull.property_type = "Unknown")) :=
  ⟨(add_property_required_fields [] 1 ⟨"t0"⟩ bodyMissing).1 (by decide),
    (add_property_required_fields [] 1 ⟨"t0"⟩ bodyFull).2 (by decide) rowFull (by decide)⟩

/-- C2: on every nearby-search response, each returned property's computed
distance_meters is at most the requested radius, only rows with a non-null
location appear, and the list is non-decreasing in distance_meters. -/
theorem nearby_within_radius_sorted (d : ℚ × ℚ → ℚ × ℚ → ℚ) (table : List Row)
    (storeOk : Bool) (args : NearbyArgs) :
    (∀ nr ∈ (find_nearby_properties d table storeOk args).props,
      nr.distance_meters ≤ ((find_nearby_properties d table storeOk args).radiusOf : ℚ)
      ∧ nr.base.location.isSome = true)
    ∧ (find_nearby_properties d table storeOk args).props.Pairwise
        (fun a b => a.distance_meters ≤ b.distance_meters) := by
  rcases find_nearby_cases d table storeOk args with h | h |
    ⟨lat, lng, radius, limitRaw, _, _, _, _, _, h⟩ <;> rw [h]
  · simp [NearbyResp.props]
  · simp [NearbyResp.props]
  · simp only [NearbyResp.props, NearbyResp.radiusOf]
    exact ⟨fun nr hnr => mem_nearbyQuery d table lng lat radius _ nr hnr,
      pairwise_nearbyQuery d table lng lat radius _⟩

/-- The discrete metric on points: a concrete, fully computable stand-in
for the store's distance function in witnesses (it vanishes exactly on
equal points). -/
def discreteDist : ℚ × ℚ → ℚ × ℚ → ℚ :=
  fun p c => if p = c then 0 else 1

theorem nearby_within_radius_sorted_witness :
    (NearbyRow.mk rowFull (-122) 37 0).distance_meters ≤
      ((find_nearby_properties discreteDist [rowFull] true
        ⟨.num 37, .num (-122), .num 5, .num 10⟩).radiusOf : ℚ)
    ∧ (NearbyRow.mk rowFull (-122) 37 0).base.location.isSome = true :=
  (nearby_within_radius_sorted discreteDist [rowFull] true
      ⟨.num 37, .num (-122), .num 5, .num 10⟩).1
    (NearbyRow.mk rowFull (-122) 37 0) (by decide)

/-- C4: in both search endpoints the number of returned rows never exceeds
min(requested limit, 100), so a limit above 100 yields at most 100 rows;
an absent limit parses to the default 10 (nearby) or 20 (filtered). -/
theorem limit_clamped_both (d : ℚ × ℚ → ℚ × ℚ → ℚ) (table : List Row)
    (storeOk : Bool) (nargs : NearbyArgs) (sargs : SearchArgs) (ln ls : Int)
    (hn : pyIntArg nargs.limit 10 = some ln) (hs : pyIntArg sargs.limit 20 = some ls) :
    ((find_nearby_properties d table storeOk nargs).props.length ≤ (min ln 100).toNat
      ∧ (100 < ln →
        (find_nearby_properties d table storeOk nargs).props.length ≤ 100))
    ∧ ((search_properties table storeOk sargs).props.length ≤ (min ls 100).toNat
      ∧ (100 < ls → (search_properties table storeOk sargs).props.length ≤ 100))
    ∧ pyIntArg RawNum.absent 10 = some 10
    ∧ pyIntArg RawNum.absent 20 = some 20 := by
  refine ⟨?_, ?_, rfl, rfl⟩
  · rcases find_nearby_cases d table storeOk nargs with h | h |
      ⟨lat, lng, radius, limitRaw, _, _, _, h4, _, h⟩
    · rw [h]; exact ⟨Nat.zero_le _, fun _ => Nat.zero_le _⟩
    · rw [h]; exact ⟨Nat.zero_le _, fun _ => Nat.zero_le _⟩
    · rw [hn] at h4
      cases Option.some.inj h4
      rw [h]
      simp only [NearbyResp.props]
      refine ⟨length_nearbyQuery_le d table lng lat radius _, fun _ => ?_⟩
      exact le_trans (length_nearbyQuery_le d table lng lat radius _)
        (Int.toNat_le_toNat (min_le_right _ _))
  · rcases search_cases table storeOk sargs with h | ⟨limitRaw, h1, _, h⟩
    · rw [h]; exact ⟨Nat.zero_le _, fun _ => Nat.zero_le _⟩
    · rw [hs] at h1
      cases Option.some.inj h1
      rw [h]
      simp only [SearchResp.props]
      refine ⟨length_searchQuery_le table _ _, fun _ => ?_⟩
      exact le_trans (length_searchQuery_le table _ _)
        (Int.toNat_le_toNat (min_le_right _ _))

theorem limit_clamped_both_witness :
    ((find_nearby_properties discreteDist [rowFull] true
        ⟨.num 37, .num (-122), .num 5, .num 500⟩).props.length ≤
        (min (500 : Int) 100).toNat
      ∧ (100 < (500 : Int) →
        (find_nearby_properties discreteDist [rowFull] true
          ⟨.num 37, .num (-122), .num 5, .num 500⟩).props.length ≤ 100))
    ∧ ((search_properties [rowFull] true
        ⟨⟨none, none, none, none, none⟩, .num 500⟩).props.length ≤
        (min (500 : Int) 100).toNat
      ∧ (100 < (500 : Int) →
        (search_properties [rowFull] true
          ⟨⟨none, none, none, none, none⟩, .num 500⟩).props.length ≤ 100))
    ∧ pyIntArg RawNum.absent 10 = some 10
    ∧ pyIntArg RawNum.absent 20 = some 20 :=
  limit_clamped_both discreteDist [rowFull] true ⟨.num 37, .num (-122), .num 5, .num 500⟩
    ⟨⟨none, none, none, none, none⟩, .num 500⟩ 500 500 (by decide) (by decide)

/-- C10: in both search endpoints every successful response reports
total_found equal to the length of the returned properties array, and that
length is bounded by the clamped limit, so total_found never reports
matches beyond the cap. -/
theorem total_found_matches (d : ℚ × ℚ → ℚ × ℚ → ℚ) (table : List Row)
    (storeOk : Bool) (nargs : NearbyArgs) (sargs : SearchArgs) (ln ls : Int)
    (hn : pyIntArg nargs.limit 10 = some ln) (hs : pyIntArg sargs.limit 20 = some ls) :
    (find_nearby_properties d table storeOk nargs).totalFound =
      (find_nearby_properties d table storeOk nargs).props.length
    ∧ (search_properties table storeOk sargs).totalFound =
      (search_properties table storeOk sargs).props.length
    ∧ (find_nearby_properties d table storeOk nargs).totalFound ≤ (min ln 100).toNat
    ∧ (search_properties table storeOk sargs).totalFound ≤ (min ls 100).toNat := by
  have hnear : (find_nearby_properties d table storeOk nargs).totalFound =
      (find_nearby_properties d table storeOk nargs).props.length
      ∧ (find_nearby_properties d table storeOk nargs).totalFound ≤ (min ln 100).toNat := by
    rcases find_nearby_cases d table storeOk nargs with h | h |
      ⟨lat, lng, radius, limitRaw, _, _, _, h4, _, h⟩
    · rw [h]; exact ⟨rfl, Nat.zero_le _⟩
    · rw [h]; exact ⟨rfl, Nat.zero_le _⟩
    · rw [hn] at h4
      cases Option.some.inj h4
      rw [h]
      exact ⟨rfl, length_nearbyQuery_le d table lng lat radius _⟩
  have hsearch : (search_properties table storeOk sargs).totalFound =
      (search_properties table storeOk sargs).props.length
      ∧ (search_properties table storeOk sargs).totalFound ≤ (min ls 100).toNat := by
    rcases search_cases table storeOk sargs with h | ⟨limitRaw, h1, _, h⟩
    · rw [h]; exact ⟨rfl, Nat.zero_le _⟩
    · rw [hs] at h1
      cases Option.some.inj h1
      rw [h]
      exact ⟨rfl, length_searchQuery_le table _ _⟩
  exact ⟨hnear.1, hsearch.1, hnear.2, hsearch.2⟩

theorem total_found_matches_witness :
    (find_nearby_properties discreteDist [rowFull] true
      ⟨.num 37, .num (-122), .num 5, .num 3⟩).totalFound =
      (find_nearby_properties discreteDist [rowFull] true
        ⟨.num 37, .num (-122), .num 5, .num 3⟩).props.length
    ∧ (search_properties [rowFull] true
      ⟨⟨none, none, none, none, none⟩, .absent⟩).totalFound =
      (search_properties [rowFull] true
        ⟨⟨none, none, none, none, none⟩, .absent⟩).props.length
    ∧ (find_nearby_properties discreteDist [rowFull] true
      ⟨.num 37, .num (-122), .num 5, .num 3⟩).totalFound ≤ (min (3 : Int) 100).toNat
    ∧ (search_properties [rowFull] true
      ⟨⟨none, none, none, none, none⟩, .absent⟩).totalFound ≤ (min (20 : Int) 100).toNat :=
  total_found_matches discreteDist [rowFull] true ⟨.num 37, .num (-122), .num 5, .num 3⟩
    ⟨⟨none, none, none, none, none⟩, .absent⟩ 3 20 (by decide) rfl

/-- C8: the 400 clause (non-numeric parameter) and the generic-500 clause
(store failure) hold on the full pipeline, but the empty-result clause
diverges from the code: at fully valid parameters over an empty table —
exactly the case the claim says yields HTTP 200 with total_found 0 — the
query result is empty, yet the handler responds with the generic 500,
because the success body's jsonify call (positional dict plus default
keyword, src/app.py line 212) raises TypeError and the generic except
converts it. Evaluated here at that failing input. -/
theorem nearby_empty_result_hits_500 :
    nearbyQuery discreteDist [] 2 1 3 (min (4 : Int) 100) = []
    ∧ find_nearby_properties_full discreteDist [] true
        ⟨.num 1, .num 2, .num 3, .num 4⟩ = .searchFailed
    ∧ (find_nearby_properties_full discreteDist [] true
        ⟨.num 1, .num 2, .num 3, .num 4⟩).status = 500
    ∧ find_nearby_properties_full discreteDist [] true
        ⟨.malformed, .num 2, .num 3, .num 4⟩ = .invalidParams
    ∧ NearbyResp.invalidParams.status = 400
    ∧ find_nearby_properties_full discreteDist [] false
        ⟨.num 1, .num 2, .num 3, .num 4⟩ = .searchFailed := by
  decide

theorem length_optCondInt (mk : Int → Cond) (x : Option Int) :
    (optCondInt mk x).length =
      (match x with | some n => if n = 0 then 0 else 1 | none => 0) := by
  cases x with
  | none => rfl
  | some n => by_cases hn : n = 0 <;> simp [optCondInt, hn]

theorem length_optCondRat (x : Option ℚ) :
    (optCondRat x).length =
      (match x with | some q => if q = 0 then 0 else 1 | none => 0) := by
  cases x with
  | none => rfl
  | some q => by_cases hq : q = 0 <;> simp [optCondRat, hq]

theorem length_optCondStr (x : Option String) :
    (optCondStr x).length =
      (match x with | some s => if s = "" then 0 else 1 | none => 0) := by
  cases x with
  | none => rfl
  | some s => by_cases hs : s = "" <;> simp [optCondStr, hs]

theorem condsOf_length (f : SearchFilters) : (condsOf f).length = truthyCount f := by
  simp only [condsOf, truthyCount, List.length_append, length_optCondInt,
    length_optCondRat, length_optCondStr]

/-- C1 (amended): each present optional input with a truthy value (a
non-zero number, a non-empty string) contributes exactly one predicate,
AND-combined with the mandatory active-status predicate — absent or falsy
inputs contribute none — and every returned property has listing_status
active and satisfies every truthy supplied filter. -/
theorem search_conjunctive_truthy_filters (table : List Row) (storeOk : Bool) :
    (∀ (f : SearchFilters) (limit : Int),
      (buildQuery f limit).1.length = 1 + truthyCount f)
    ∧ (∀ (a : SearchArgs) (r : Row), r ∈ (search_properties table storeOk a).props →
      r.listing_status = "active"
      ∧ (∀ n, a.filters.price_min = some n → n ≠ 0 → (n : ℚ) ≤ r.price)
      ∧ (∀ n, a.filters.price_max = some n → n ≠ 0 → r.price ≤ (n : ℚ))
      ∧ (∀ n, a.filters.bedrooms = some n → n ≠ 0 → ∃ b, r.bedrooms = some b ∧ n ≤ b)
      ∧ (∀ q, a.filters.bathrooms = some q → q ≠ 0 →
          ∃ b, r.bathrooms = some b ∧ q ≤ b)
      ∧ (∀ s, a.filters.property_type = some s → s ≠ "" →
          ilikeContains s r.property_type = true)) := by
  constructor
  · intro f limit
    rw [buildQuery_eq]
    simp [condsOf_length, Nat.add_comm]
  · intro a r hr
    rcases search_cases table storeOk a with h | ⟨limitRaw, _, _, h⟩
    · rw [h] at hr
      exact absurd hr (by simp [SearchResp.props])
    · rw [h] at hr
      simp only [SearchResp.props] at hr
      have hall := mem_searchQuery table _ _ r hr
      rw [buildQuery_eq] at hall
      refine ⟨?_, ?_, ?_, ?_, ?_, ?_⟩
      · have hs := hall Cond.statusActive (List.mem_cons_self _ _)
        simpa [Cond.eval] using hs
      · intro n hpm hn
        have hmem : Cond.priceGe n ∈ Cond.statusActive :: condsOf a.filters :=
          List.mem_cons_of_mem _ (by simp [condsOf, optCondInt, hpm, hn])
        have he := hall _ hmem
        simpa [Cond.eval] using he
      · intro n hpx hn
        have hmem : Cond.priceLe n ∈ Cond.statusActive :: condsOf a.filters :=
          List.mem_cons_of_mem _ (by simp [condsOf, optCondInt, hpx, hn])
        have he := hall _ hmem
        simpa [Cond.eval] using he
      · intro n hbd hn
        have hmem : Cond.bedsGe n ∈ Cond.statusActive :: condsOf a.filters :=
          List.mem_cons_of_mem _ (by simp [condsOf, optCondInt, hbd, hn])
        have he := hall _ hmem
        cases hb : r.bedrooms with
        | none => rw [Cond.eval, hb] at he; exact absurd he (by simp)
        | some b =>
          rw [Cond.eval, hb] at he
          exact ⟨b, rfl, of_decide_eq_true he⟩
      · intro q hbt hq
        have hmem : Cond.bathsGe q ∈ Cond.statusActive :: condsOf a.filters :=
          List.mem_cons_of_mem _ (by simp [condsOf, optCondRat, hbt, hq])
        have he := hall _ hmem
        cases hb : r.bathrooms with
        | none => rw [Cond.eval, hb] at he; exact absurd he (by simp)
        | some b =>
          rw [Cond.eval, hb] at he
          exact ⟨b, rfl, of_decide_eq_true he⟩
      · intro s hpt hs
        have hmem : Cond.typeIlike s ∈ Cond.statusActive :: condsOf a.filters :=
          List.mem_cons_of_mem _ (by simp [condsOf, optCondStr, hpt, hs])
        exact hall _ hmem

/-- An active listed row matching the witness filters. -/
def activeRow : Row :=
  ⟨7, "2 Oak Ave", 5, none, none, none, "house", "active", none, ⟨"t2"⟩⟩

theorem search_conjunctive_truthy_filters_witness :
    (buildQuery ⟨some 2, none, none, none, none⟩ 20).1.length =
      1 + truthyCount ⟨some 2, none, none, none, none⟩
    ∧ activeRow.listing_status = "active"
    ∧ (2 : ℚ) ≤ activeRow.price :=
  ⟨(search_conjunctive_truthy_filters [activeRow] true).1
      ⟨some 2, none, none, none, none⟩ 20,
    ((search_conjunctive_truthy_filters [activeRow] true).2
      ⟨⟨some 2, none, none, none, none⟩, .absent⟩ activeRow (by decide)).1,
    ((search_conjunctive_truthy_filters [activeRow] true).2
      ⟨⟨some 2, none, none, none, none⟩, .absent⟩ activeRow (by decide)).2.1
      2 rfl (by decide)⟩

/-- The filter set of the C1 counterexample: price-min present with value
0. -/
def zeroMinFilters : SearchFilters := ⟨some 0, none, none, none, none⟩

/-- Counterexample to C1 as stated: the price-min input is present (value
0), yet Python truthiness makes the builder skip its append, so the
condition list holds only the base predicate — one present input
contributed no predicate. -/
theorem search_present_filter_no_predicate :
    presentCount zeroMinFilters = 1
    ∧ (buildQuery zeroMinFilters 20).1 = [Cond.statusActive]
    ∧ (buildQuery zeroMinFilters 20).1.length ≠ 1 + presentCount zeroMinFilters := by
  decide

/-- C6 (amended): the stored point is built from the body's (longitude,
latitude) in that axis order with SRID 4326, and an insert at (lat, lng)
followed by a nearby search centered there with any radius ≥ 0 places
the inserted property in the search query's result set — provided the
rows within the radius (the new one included) do not outnumber the
effective result limit, since the LIMIT cutoff can drop the new row
behind equally distant ones — but the endpoint does not return it: the
success response is unreachable because the success body's jsonify call
raises, so the search responds with the generic 500. Stated for any
store distance function that vanishes on equal points. -/
theorem insert_point_axis_order_roundtrip
    (d : ℚ × ℚ → ℚ × ℚ → ℚ) (hd : ∀ p, d p p = 0)
    (table : List Row) (nextId : Int) (ts : PyDateTime) (data : Body)
    (lat lng : ℚ) (radius limitRaw : Int) (row : Row)
    (hlng : List.lookup "longitude" data = some (.num lng))
    (hlat : List.lookup "latitude" data = some (.num lat))
    (hreq : requiredPresent data = true)
    (hrow : insertRow nextId ts data = some row)
    (hr : 0 ≤ radius)
    (hcap : (nearbyHits d (table ++ [row]) lng lat radius).length ≤
      (min limitRaw 100).toNat) :
    (add_property table nextId ts data).1 = .created nextId
    ∧ row.location = some (lng, lat)
    ∧ (∃ nr ∈ nearbyQuery d (add_property table nextId ts data).2 lng lat radius
        (min limitRaw 100), nr.base.id = nextId)
    ∧ find_nearby_properties_full d (add_property table nextId ts data).2 true
        ⟨.num lat, .num lng, .num ((radius : Int) : ℚ),
          .num ((limitRaw : Int) : ℚ)⟩ = .searchFailed := by
  obtain ⟨hid, hpt, lng', lat', hlng', hlat', hloc⟩ :=
    insertRow_elim nextId ts data row hrow
  rw [hlng] at hlng'
  rw [hlat] at hlat'
  simp only [coerceNum, Option.some.injEq] at hlng' hlat'
  subst hlng'
  subst hlat'
  have hadd : add_property table nextId ts data = (.created nextId, table ++ [row]) := by
    simp [add_property, hreq, hrow]
  have hadd1 : (add_property table nextId ts data).1 = .created nextId := by rw [hadd]
  have hadd2 : (add_property table nextId ts data).2 = table ++ [row] := by rw [hadd]
  rw [hadd2]
  refine ⟨hadd1, hloc, ?_, ?_⟩
  · have hzero : d (lng, lat) (lng, lat) = 0 := hd _
    have hmemhits : (⟨row, lng, lat, 0⟩ : NearbyRow) ∈
        nearbyHits d (table ++ [row]) lng lat radius := by
      simp only [nearbyHits]
      rw [List.mem_filterMap]
      refine ⟨row, by simp, ?_⟩
      simp only [hloc, hzero]
      rw [if_pos (Int.cast_nonneg.mpr hr)]
    have hlensort : (sortKey (fun nr : NearbyRow => nr.distance_meters)
        (nearbyHits d (table ++ [row]) lng lat radius)).length ≤
        (min limitRaw 100).toNat := by
      rw [length_sortKey]
      exact hcap
    refine ⟨⟨row, lng, lat, 0⟩, ?_, hid⟩
    simp only [nearbyQuery]
    rw [List.take_of_length_le hlensort, mem_sortKey]
    exact hmemhits
  · have hh : find_nearby_properties d (table ++ [row]) true
        ⟨.num lat, .num lng, .num ((radius : Int) : ℚ), .num ((limitRaw : Int) : ℚ)⟩ =
        .ok lat lng radius
          (nearbyQuery d (table ++ [row]) lng lat radius (min limitRaw 100)).length
          (nearbyQuery d (table ++ [row]) lng lat radius (min limitRaw 100)) := by
      unfold find_nearby_properties
      dsimp only [pyFloatArg]
      rw [pyIntArg_intCast radius 1000, pyIntArg_intCast limitRaw 10]
      rfl
    unfold find_nearby_properties_full
    rw [hh]
    rfl

theorem insert_point_axis_order_roundtrip_witness :
    (add_property [] 1 ⟨"t0"⟩ bodyFull).1 = .created 1
    ∧ rowFull.location = some (-122, 37)
    ∧ (∃ nr ∈ nearbyQuery discreteDist (add_property [] 1 ⟨"t0"⟩ bodyFull).2
        (-122) 37 0 (min (10 : Int) 100), nr.base.id = 1)
    ∧ find_nearby_properties_full discreteDist (add_property [] 1 ⟨"t0"⟩ bodyFull).2 true
        ⟨.num 37, .num (-122), .num ((0 : Int) : ℚ), .num ((10 : Int) : ℚ)⟩ =
        .searchFailed :=
  insert_point_axis_order_roundtrip discreteDist (fun p => by simp [discreteDist])
    [] 1 ⟨"t0"⟩ bodyFull 37 (-122) 0 10 rowFull (by decide) (by decide) (by decide)
    (by decide) (by decide) (by decide)

/-- An insert body at the origin. -/
def originBody : Body :=
  [("address", .str "origin"), ("price", .num 1), ("latitude", .num 0),
    ("longitude", .num 0)]

/-- Counterexample to C6 as stated: insert a property at the origin (id
21, accepted with 201), then search at the inserted coordinates with
radius 0 ≥ 0. The response is the generic 500 failure carrying no
properties at all — the success body's jsonify call raises TypeError and
the generic except converts it — so the inserted property is not
returned. -/
theorem insert_roundtrip_no_return_counterexample :
    discreteDist (0, 0) (0, 0) = 0
    ∧ (0 : Int) ≤ 0
    ∧ (add_property [] 21 ⟨"t4"⟩ originBody).1 = .created 21
    ∧ find_nearby_properties_full discreteDist
        (add_property [] 21 ⟨"t4"⟩ originBody).2 true
        ⟨.num 0, .num 0, .num 0, .absent⟩ = .searchFailed
    ∧ (find_nearby_properties_full discreteDist
        (add_property [] 21 ⟨"t4"⟩ originBody).2 true
        ⟨.num 0, .num 0, .num 0, .absent⟩).props = []
    ∧ ¬ ∃ nr ∈ (find_nearby_properties_full discreteDist
        (add_property [] 21 ⟨"t4"⟩ originBody).2 true
        ⟨.num 0, .num 0, .num 0, .absent⟩).props, nr.base.id = 21 := by
  decide
